import Mathlib

/-
Verification development for the pybalboa diagnostic harness
(`pybalboa/__main__.py`): the command-and-verify engine with bounded
polling and exhaustive option sweep.

Shallow embedding conventions:
* Control states (Python `IntEnum` members) are modelled as `Nat`.
* Temperatures (Python floats compared only for equality) are modelled as `ℚ`.
* The external device (the spa reached over the network) is modelled as an
  oracle (`Device` / `TempDevice`) answering every set request with an
  acceptance bit and a trajectory of observed states, indexed by the attempt
  number, the state at call time, the commanded target and the poll tick.
* The 10 s budget polled every 100 ms in `adjust_control` /
  `adjust_temperature` is modelled as a poll-count budget `fuel`
  (reference instantiation: 100 polls).
* Diagnostic `print` calls that carry verification outcomes are modelled as
  `Line` values; purely informational dumps (module id, setup parameters,
  status listing) are elided as out of scope.
-/

namespace Pybalboa

/-- Outcome of one verified state-change attempt: the target state was
observed in time, the set request was rejected at dispatch, or the poll
budget elapsed (carrying the last-observed value). -/
inductive Outcome (α : Type) where
  | confirmed
  | notAccepted
  | timedOut (lastObserved : α)
  deriving DecidableEq

/-- Diagnostic output lines printed by `adjust_control`
(`__main__.py` lines 175, 176, 187, 189). -/
inductive Line where
  | currentState (s : Nat)
  | setTo (t : Nat)
  | stateIsNow (t : Nat)
  | stateNotChanged (lastObserved : Nat)
  deriving DecidableEq

/-- First poll tick `k < fuel` at which the observed value equals the target;
`none` if the budget elapses first.  This is the poll-until-equal loop
`while control.state != state: await asyncio.sleep(0.1)` bounded by
`asyncio.wait_for(_state_check(), wait)`. -/
def firstConfirm {α : Type} [DecidableEq α] (observe : Nat → α) (target : α)
    (fuel : Nat) : Option Nat :=
  (List.range fuel).find? fun k => decide (observe k = target)

/-- Oracle for the external control device (`SpaControl` over the wire).
`accepted n t` is the boolean returned by `control.set_state(t)` on the
`n`-th set request; `observe n c t k` is the state the device reports at poll
tick `k` after the `n`-th set request was issued with live state `c` and
target `t`. -/
structure Device where
  accepted : Nat → Nat → Bool
  observe : Nat → Nat → Nat → Nat → Nat

/-- Result of one `adjust_control` call.  `setCount` counts issued set
requests, `pollReads` the getter reads performed by the poll loop,
`sleeps` the 100 ms sleeps executed, `output` the printed lines. -/
structure VerifyResult where
  outcome : Outcome Nat
  finalState : Nat
  setCount : Nat
  pollReads : Nat
  sleeps : Nat
  output : List Line
  deriving DecidableEq

/-- Embedding of `adjust_control(control, state)` (`__main__.py` 173-189):
print the current state and the target, issue `set_state` once; if it is not
accepted return at once (no poll loop); otherwise poll until the target is
observed (`Confirmed`, printing the new state) or the budget elapses
(`TimedOut`, printing the last-observed state, read once more by the except
handler at tick `fuel`). -/
def verify (dev : Device) (n cur target fuel : Nat) : VerifyResult :=
  if dev.accepted n target then
    match firstConfirm (dev.observe n cur target) target fuel with
    | some k =>
        ⟨Outcome.confirmed, target, 1, k + 1, k,
          [Line.currentState cur, Line.setTo target, Line.stateIsNow target]⟩
    | none =>
        ⟨Outcome.timedOut (dev.observe n cur target fuel),
          dev.observe n cur target fuel, 1, fuel, fuel,
          [Line.currentState cur, Line.setTo target,
            Line.stateNotChanged (dev.observe n cur target fuel)]⟩
  else
    ⟨Outcome.notAccepted, cur, 1, 0, 0,
      [Line.currentState cur, Line.setTo target]⟩

/-- One recorded verification attempt of a sweep: the targeted option and the
verifier's result. -/
structure Step where
  target : Nat
  result : VerifyResult
  deriving DecidableEq

/-- State of the option loop of `test_controls`: attempts recorded so far,
live control state, next attempt index. -/
structure LoopOut where
  log : List Step
  cur : Nat
  next : Nat
  deriving DecidableEq

/-- Embedding of the option loop of `test_controls` (`__main__.py` 145-147):
for each option, skip it when it equals the captured original state `s` or
the live state (`option not in (state, control.state)`), otherwise run one
verification attempt; the live state after an attempt is the verifier's
final observed state. -/
def sweepLoop (dev : Device) (fuel s : Nat) :
    List Nat → Nat → Nat → LoopOut
  | [], cur, n => ⟨[], cur, n⟩
  | o :: rest, cur, n =>
    if o = s ∨ o = cur then
      sweepLoop dev fuel s rest cur n
    else
      let r := verify dev n cur o fuel
      let out := sweepLoop dev fuel s rest r.finalState (n + 1)
      ⟨⟨o, r⟩ :: out.log, out.cur, out.next⟩

/-- Result of one full control sweep: the option-loop attempts, the
conditional final restore attempt, and the final live state. -/
structure SweepResult where
  log : List Step
  restore : Option Step
  final : Nat
  deriving DecidableEq

/-- Embedding of one control's sweep in `test_controls` (`__main__.py`
144-149): capture `state = control.state`, run the option loop, then
`if control.state != state` run one final verification attempt targeting the
captured original state. -/
def sweep (options : List Nat) (s : Nat) (dev : Device) (fuel : Nat) :
    SweepResult :=
  let out := sweepLoop dev fuel s options s 0
  if out.cur = s then
    ⟨out.log, none, out.cur⟩
  else
    let r := verify dev out.next out.cur s fuel
    ⟨out.log, some ⟨s, r⟩, r.finalState⟩

/-- Targets of a list of recorded attempts. -/
def attemptsOf (l : List Step) : List Nat :=
  l.map fun st => st.target

/-- All targets a sweep issued a verification attempt for, the conditional
restore included. -/
def attemptTargets (r : SweepResult) : List Nat :=
  attemptsOf r.log ++ attemptsOf r.restore.toList

/-- Total number of set requests a sweep issued. -/
def setRequests (r : SweepResult) : Nat :=
  ((r.log ++ r.restore.toList).map fun st => st.result.setCount).sum

/-- Oracle for the spa's target-temperature property: `observe i c t k` is
the reported target temperature at poll tick `k` after the `i`-th
`set_temperature` call was issued with current target `c` and commanded
value `t`.  `spa.set_temperature` exposes no acceptance signal, so there is
no acceptance bit. -/
structure TempDevice where
  observe : Nat → ℚ → ℚ → Nat → ℚ

/-- Result of one `adjust_temperature` call (prints elided). -/
structure TempResult where
  outcome : Outcome ℚ
  final : ℚ
  pollReads : Nat
  sleeps : Nat
  deriving DecidableEq

/-- Embedding of `adjust_temperature(spa, temperature)` (`__main__.py`
153-170): issue the set (its return value is not checked, so there is no
not-accepted path), then poll the reported target temperature until it
equals the commanded value or the budget elapses. -/
def adjustTemperature (tdev : TempDevice) (i : Nat) (cur target : ℚ)
    (fuel : Nat) : TempResult :=
  match firstConfirm (tdev.observe i cur target) target fuel with
  | some k => ⟨Outcome.confirmed, target, k + 1, k⟩
  | none =>
      ⟨Outcome.timedOut (tdev.observe i cur target fuel),
        tdev.observe i cur target fuel, fuel, fuel⟩

/-- Embedding of the temperature part of `test_controls` (`__main__.py`
131-138): capture the target temperature `t`, adjust to the maximum bound
when `t` differs from it and to the minimum bound otherwise, then adjust
back to the captured value.  Returns the commanded values paired with the
verifier results. -/
def temperatureTest (t tmax tmin : ℚ) (tdev : TempDevice) (fuel : Nat) :
    List (ℚ × TempResult) :=
  let first := if t ≠ tmax then tmax else tmin
  let r1 := adjustTemperature tdev 0 t first fuel
  let r2 := adjustTemperature tdev 1 r1.final t fuel
  [(first, r1), (t, r2)]

/-- Faults the harness can raise: `SpaConnectionError` (the only exception
`connect_and_listen` catches) and the `AssertionError` raised by the
`assert` statements at `__main__.py` 128-130. -/
inductive Fault where
  | spaConnectionError
  | assertionError
  deriving DecidableEq

/-- One controllable feature as reported by the spa: its option set and its
state at sweep start. -/
structure ControlModel where
  options : List Nat
  state : Nat

/-- Model of one spa session as the harness sees it: whether entering the
session raises `SpaConnectionError`, whether the configuration loaded,
whether the spa reports `TEST_MODE`, the three temperature fields the
`assert` statements check, the controls, and the device oracles. -/
structure SpaModel where
  connectionError : Bool
  configLoaded : Bool
  testMode : Bool
  targetTemperature : Option ℚ
  temperatureMaximum : Option ℚ
  temperatureMinimum : Option ℚ
  controls : List ControlModel
  dev : Device
  tdev : TempDevice

/-- Embedding of `test_controls(spa)` (`__main__.py` 122-150): the three
`assert` statements raise `AssertionError` when any of target temperature or
the temperature bounds is unavailable; otherwise the temperature test runs,
followed by one sweep per control.  Each control's attempt numbering starts
at its own sweep. -/
def testControlsRun (spa : SpaModel) (fuel : Nat) :
    Except Fault (List (ℚ × TempResult) × List SweepResult) :=
  match spa.targetTemperature, spa.temperatureMaximum,
      spa.temperatureMinimum with
  | some t, some tmax, some tmin =>
      Except.ok (temperatureTest t tmax tmin spa.tdev fuel,
        spa.controls.map fun c => sweep c.options c.state spa.dev fuel)
  | _, _, _ => Except.error Fault.assertionError

/-- Control-flow-relevant top-level report lines of the orchestrator
(`__main__.py` 34, 39, 41, 112, 217); the informational dump is elided. -/
inductive TopLine where
  | noSpaProvided
  | failedToConnect
  | configNotLoadedTestMode
  | configNotLoadedWrong
  | noHostProvided
  deriving DecidableEq

/-- What one `connect_and_listen` call reports: its lines and, when the
sweep ran, the test results. -/
structure SessionOutcome where
  lines : List TopLine
  tested : Option (List (ℚ × TempResult) × List SweepResult)
  deriving DecidableEq

/-- Embedding of `connect_and_listen` (`__main__.py` 25-119): no spa means
the `"No spa provided"` report; a connection fault is caught by the
`except SpaConnectionError` clause and reported; an unloaded configuration
is reported (distinguishing test mode) and the sweep skipped; otherwise
`test_controls` runs and any fault it raises propagates uncaught. -/
def connectAndListen (spa : Option SpaModel) (fuel : Nat) :
    Except Fault SessionOutcome :=
  match spa with
  | none => Except.ok ⟨[TopLine.noSpaProvided], none⟩
  | some sp =>
    if sp.connectionError then
      Except.ok ⟨[TopLine.failedToConnect], none⟩
    else if sp.configLoaded then
      match testControlsRun sp fuel with
      | Except.ok res => Except.ok ⟨[], some res⟩
      | Except.error f => Except.error f
    else
      Except.ok
        ⟨[if sp.testMode then TopLine.configNotLoadedTestMode
            else TopLine.configNotLoadedWrong], none⟩

/-- Embedding of `run_discovery` (`__main__.py` 18-22): process the
discovered spas in order; a fault raised while processing one spa
propagates, so later spas are never processed. -/
def runDiscovery (spas : List SpaModel) (fuel : Nat) :
    Except Fault (List SessionOutcome) :=
  match spas with
  | [] => Except.ok []
  | sp :: rest =>
    match connectAndListen (some sp) fuel with
    | Except.error f => Except.error f
    | Except.ok o =>
      match runDiscovery rest fuel with
      | Except.error f => Except.error f
      | Except.ok os => Except.ok (o :: os)

/-- Whether a session ended in an uncaught fault. -/
def isFatal : Except Fault SessionOutcome → Bool
  | Except.error _ => true
  | Except.ok _ => false

/-- Observable result of one process run in discovery mode: the top-level
report lines, the number of spas whose control test ran, and the exit
code. -/
structure RunResult where
  lines : List TopLine
  sweepsRun : Nat
  exitCode : Nat
  deriving DecidableEq

/-- Embedding of the discovery-mode path of `__main__` (`__main__.py`
216-220): print the `"No host provided. Running in discovery mode..."`
banner, run discovery, then `sys.exit(0)`.  An uncaught fault aborts the
interpreter with a nonzero exit code (output printed before the fault is
elided in that branch). -/
def discoveryMain (spas : List SpaModel) (fuel : Nat) : RunResult :=
  match runDiscovery spas fuel with
  | Except.ok os =>
      ⟨TopLine.noHostProvided :: (os.map fun o => o.lines).flatten,
        (os.filter fun o => o.tested.isSome).length, 0⟩
  | Except.error _ => ⟨[TopLine.noHostProvided], 0, 1⟩

/-- Obedient device: every set request is accepted and the target is
observed from the first poll on. -/
def devOk : Device := ⟨fun _ _ => true, fun _ _ t _ => t⟩

/-- Device that rejects every set request and keeps reporting the state at
call time. -/
def devNever : Device := ⟨fun _ _ => false, fun _ c _ _ => c⟩

/-- Device that accepts every set request but never changes its reported
state. -/
def devStuck : Device := ⟨fun _ _ => true, fun _ c _ _ => c⟩

/-- Device that accepts every set request but always ends up reporting
state 2, whatever was commanded. -/
def devGlitch : Device := ⟨fun _ _ => true, fun _ _ _ _ => 2⟩

/-- Device that rejects the first set request and behaves obediently from
then on. -/
def devRejectFirst : Device :=
  ⟨fun n _ => decide (0 < n), fun _ _ t _ => t⟩

/-- Obedient temperature oracle: the commanded value is reported from the
first poll on. -/
def tdevOk : TempDevice := ⟨fun _ _ t _ => t⟩

/-- Spa whose configuration is loaded but whose target temperature is
unavailable, tripping the assertion at `__main__.py` 128. -/
def spaBad : SpaModel :=
  ⟨false, true, false, none, some 40, some 10, [], devOk, tdevOk⟩

/-- Healthy spa: configuration loaded, all temperature fields present, no
controls. -/
def spaGood : SpaModel :=
  ⟨false, true, false, some 30, some 40, some 10, [], devOk, tdevOk⟩

/-- The poll loop finds no confirming tick exactly when no tick inside the
budget observes the target. -/
theorem firstConfirm_eq_none_iff {α : Type} [DecidableEq α]
    (observe : Nat → α) (target : α) (fuel : Nat) :
    firstConfirm observe target fuel = none ↔
      ∀ k, k < fuel → observe k ≠ target := by
  simp [firstConfirm, List.find?_eq_none, List.mem_range]

/-- When the very first poll observes the target, the poll loop confirms at
tick 0. -/
theorem firstConfirm_eq_some_zero {α : Type} [DecidableEq α]
    (observe : Nat → α) (target : α) (fuel : Nat) (hf : 0 < fuel)
    (h : observe 0 = target) :
    firstConfirm observe target fuel = some 0 := by
  cases fuel with
  | zero => omega
  | succ m =>
    rw [firstConfirm, List.range_succ_eq_map]
    rw [List.find?_cons_of_pos]
    simp [h]

/-- A rejected set request makes the verifier return at once: outcome
`notAccepted`, no poll-loop reads, no sleeps, live state unchanged, and no
output line past the two preamble prints. -/
theorem verify_rejected (dev : Device) (n cur target fuel : Nat)
    (h : dev.accepted n target = false) :
    verify dev n cur target fuel =
      ⟨Outcome.notAccepted, cur, 1, 0, 0,
        [Line.currentState cur, Line.setTo target]⟩ := by
  simp [verify, h]

/-- An accepted set request whose target is observed inside the budget is
confirmed and leaves the live state at the target. -/
theorem verify_confirmed_of (dev : Device) (n cur target fuel : Nat)
    (hacc : dev.accepted n target = true)
    (h : ∃ k, k < fuel ∧ dev.observe n cur target k = target) :
    (verify dev n cur target fuel).outcome = Outcome.confirmed ∧
      (verify dev n cur target fuel).finalState = target := by
  have hne : firstConfirm (dev.observe n cur target) target fuel ≠ none := by
    rw [Ne, firstConfirm_eq_none_iff]
    push_neg
    obtain ⟨k, hk, he⟩ := h
    exact ⟨k, hk, he⟩
  cases hfc : firstConfirm (dev.observe n cur target) target fuel with
  | none => exact absurd hfc hne
  | some k => simp [verify, hacc, hfc]

/-- On a device each of whose responses either reaches the target inside the
budget or is observed back at the call-time state when time is up, the
verifier leaves the live state either at the target or where it was. -/
theorem verify_finalState_localized (dev : Device) (fuel : Nat)
    (H : ∀ n c t, (∃ k, k < fuel ∧ dev.observe n c t k = t) ∨
      dev.observe n c t fuel = c) (n c t : Nat) :
    (verify dev n c t fuel).finalState = t ∨
      (verify dev n c t fuel).finalState = c := by
  by_cases hacc : dev.accepted n t = true
  · cases hfc : firstConfirm (dev.observe n c t) t fuel with
    | some k => left; simp [verify, hacc, hfc]
    | none =>
      rcases H n c t with hconf | hstay
      · obtain ⟨k, hk, he⟩ := hconf
        exact absurd he ((firstConfirm_eq_none_iff _ _ _).mp hfc k hk)
      · right; simp [verify, hacc, hfc, hstay]
  · right
    rw [verify_rejected dev n c t fuel (Bool.not_eq_true _ ▸ hacc)]

/-- Every option the loop attempts comes from the option list it was given. -/
theorem sweepLoop_target_mem (dev : Device) (fuel s : Nat) :
    ∀ (options : List Nat) (cur n t : Nat),
      t ∈ attemptsOf (sweepLoop dev fuel s options cur n).log →
        t ∈ options := by
  intro options
  induction options with
  | nil => intro cur n t h; simp [sweepLoop, attemptsOf] at h
  | cons o rest ih =>
    intro cur n t h
    by_cases hsk : o = s ∨ o = cur
    · rw [sweepLoop, if_pos hsk] at h
      exact List.mem_cons_of_mem _ (ih cur n t h)
    · rw [sweepLoop, if_neg hsk] at h
      simp only [attemptsOf, List.map_cons, List.mem_cons] at h
      rcases h with h | h
      · exact h ▸ List.mem_cons_self o rest
      · exact List.mem_cons_of_mem _ (ih _ _ t h)

/-- Core induction of the sweep: on a device that always leaves the live
state either at the commanded target or where it was, the option loop
attempts every listed option other than the captured original exactly once,
provided the options are distinct and none of them (other than the original)
already equals the live state on entry. -/
theorem sweepLoop_count_one (dev : Device) (fuel s : Nat)
    (Hloc : ∀ n c t, (verify dev n c t fuel).finalState = t ∨
      (verify dev n c t fuel).finalState = c) :
    ∀ (options : List Nat) (cur n : Nat), options.Nodup →
      (∀ o ∈ options, o ≠ s → o ≠ cur) →
      ∀ o ∈ options, o ≠ s →
        (attemptsOf (sweepLoop dev fuel s options cur n).log).count o = 1 := by
  intro options
  induction options with
  | nil => intro cur n _ _ o ho; simp at ho
  | cons p rest ih =>
    intro cur n hnd hinv o ho hos
    have hpnr : p ∉ rest := (List.nodup_cons.mp hnd).1
    have hndr : rest.Nodup := (List.nodup_cons.mp hnd).2
    by_cases hsk : p = s ∨ p = cur
    · have hor : o ∈ rest := by
        rcases List.mem_cons.mp ho with rfl | h
        · rcases hsk with rfl | hpc
          · exact absurd rfl hos
          · exact absurd hpc (hinv o (List.mem_cons_self o rest) hos)
        · exact h
      rw [sweepLoop, if_pos hsk]
      exact ih cur n hndr
        (fun q hq hqs => hinv q (List.mem_cons_of_mem _ hq) hqs) o hor hos
    · rw [sweepLoop, if_neg hsk]
      have hfin := Hloc n cur p
      have hinvr : ∀ q ∈ rest, q ≠ s →
          q ≠ (verify dev n cur p fuel).finalState := by
        intro q hq hqs
        rcases hfin with h1 | h2
        · rw [h1]; intro he; exact hpnr (he ▸ hq)
        · rw [h2]; exact hinv q (List.mem_cons_of_mem _ hq) hqs
      rcases List.mem_cons.mp ho with rfl | hor
      · have hz : o ∉ attemptsOf
            (sweepLoop dev fuel s rest (verify dev n cur o fuel).finalState
              (n + 1)).log := by
          intro hin
          exact hpnr (sweepLoop_target_mem dev fuel s rest _ _ o hin)
        simp only [attemptsOf] at hz ⊢
        simp only [List.map_cons, List.count_cons_self]
        rw [List.count_eq_zero.mpr hz]
      · have hop : o ≠ p := fun he => hpnr (he ▸ hor)
        simp only [attemptsOf, List.map_cons]
        rw [List.count_cons_of_ne hop]
        exact ih _ (n + 1) hndr hinvr o hor hos

/-- The restore attempt of a sweep, when present, targets the captured
original state. -/
theorem sweep_restore_target (options : List Nat) (s : Nat) (dev : Device)
    (fuel : Nat) (st : Step) (h : (sweep options s dev fuel).restore = some st) :
    st.target = s := by
  unfold sweep at h
  by_cases hc : (sweepLoop dev fuel s options s 0).cur = s
  · simp [hc] at h
  · simp only [hc, if_neg, ite_false] at h
    cases h
    rfl

/-- A sweep skips the restore only when the live state already equals the
captured original, and then the final state is that original. -/
theorem sweep_no_restore_final (options : List Nat) (s : Nat) (dev : Device)
    (fuel : Nat) (h : (sweep options s dev fuel).restore = none) :
    (sweep options s dev fuel).final = s := by
  unfold sweep at h ⊢
  by_cases hc : (sweepLoop dev fuel s options s 0).cur = s
  · simp [hc]
  · simp [hc] at h

/-- For a non-original option, counting attempts over the whole sweep (the
restore included) is counting attempts of the option loop: the restore only
ever targets the original. -/
theorem sweep_count_of_ne (options : List Nat) (s : Nat) (dev : Device)
    (fuel o : Nat) (ho : o ≠ s) :
    (attemptTargets (sweep options s dev fuel)).count o =
      (attemptsOf (sweepLoop dev fuel s options s 0).log).count o := by
  unfold sweep attemptTargets
  by_cases hc : (sweepLoop dev fuel s options s 0).cur = s
  · simp [hc, attemptsOf]
  · simp [hc, attemptsOf, List.count_append, List.count_singleton, ho]

/-- When every listed option equals the captured original, the option loop
does nothing. -/
theorem sweepLoop_all_original (dev : Device) (fuel s : Nat) :
    ∀ (options : List Nat) (n : Nat), (∀ o ∈ options, o = s) →
      sweepLoop dev fuel s options s n = ⟨[], s, n⟩ := by
  intro options
  induction options with
  | nil => intro n _; rfl
  | cons p rest ih =>
    intro n h
    have hp : p = s := h p (List.mem_cons_self p rest)
    rw [sweepLoop, if_pos (Or.inl hp)]
    exact ih n fun o ho => h o (List.mem_cons_of_mem _ ho)

/-- Claim C1, counterexample.  The claim says a full sweep issues exactly
one verification attempt for every option other than the starting state.
Control with options `[0, 1, 2]` starting at 0, on a device that accepts
every request but always reports state 2: the attempt targeting option 1
times out leaving the live state at 2, so when the loop reaches option 2 the
live check `option not in (state, control.state)` skips it — option 2, a
non-original option, receives zero attempts. -/
theorem sweep_option_skipped_counterexample :
    (2 ∈ ([0, 1, 2] : List Nat) ∧ (2 : Nat) ≠ 0) ∧
      (attemptTargets (sweep [0, 1, 2] 0 devGlitch 100)).count 2 = 0 := by
  decide

/-- Claim C1, amended.  Provided the options are distinct and the device
answers every set request by acceptance and by reaching the commanded target
within the poll budget (so no attempt can leave the live state parked on a
not-yet-visited option), a full sweep issues exactly one verification
attempt targeting each option other than the starting state: none is
skipped and none is attempted more than once. -/
theorem sweep_attempts_each_other_option_once (options : List Nat) (s : Nat)
    (dev : Device) (fuel : Nat) (hnd : options.Nodup)
    (hacc : ∀ n t, dev.accepted n t = true)
    (hconf : ∀ n c t, ∃ k, k < fuel ∧ dev.observe n c t k = t) :
    ∀ o ∈ options, o ≠ s →
      (attemptTargets (sweep options s dev fuel)).count o = 1 := by
  intro o ho hos
  rw [sweep_count_of_ne options s dev fuel o hos]
  exact sweepLoop_count_one dev fuel s
    (fun n c t => Or.inl (verify_confirmed_of dev n c t fuel (hacc n t)
      (hconf n c t)).2)
    options s 0 hnd (fun q hq hqs => hqs) o ho hos

/-- Claim C1, witness: an obedient device with options `[0, 1, 2]` starting
at 0 attempts option 1 exactly once. -/
theorem sweep_attempts_each_other_option_once_witness :
    (attemptTargets (sweep [0, 1, 2] 0 devOk 100)).count 1 = 1 :=
  sweep_attempts_each_other_option_once [0, 1, 2] 0 devOk 100 (by decide)
    (fun _ _ => rfl) (fun n c t => ⟨0, by decide, rfl⟩) 1 (by decide)
    (by decide)

/-- Claim C2.  For any option list and starting state `s`, if every set
request is accepted and its target is observed within the poll budget (no
`TimedOut` or `NotAccepted` outcome can occur), then after the full sweep —
all non-original options driven, then the conditional final restore — the
control's final state equals `s`. -/
theorem sweep_restores_original (options : List Nat) (s : Nat) (dev : Device)
    (fuel : Nat) (hacc : ∀ n t, dev.accepted n t = true)
    (hconf : ∀ n c t, ∃ k, k < fuel ∧ dev.observe n c t k = t) :
    (sweep options s dev fuel).final = s := by
  unfold sweep
  by_cases hc : (sweepLoop dev fuel s options s 0).cur = s
  · simp [hc]
  · simp only [hc, ite_false]
    exact (verify_confirmed_of dev _ _ s fuel (hacc _ s) (hconf _ _ s)).2

/-- Claim C2, witness: an obedient device with options `[0, 1, 2]` starting
at 0 ends the sweep back at 0. -/
theorem sweep_restores_original_witness :
    (sweep [0, 1, 2] 0 devOk 100).final = 0 :=
  sweep_restores_original [0, 1, 2] 0 devOk 100 (fun _ _ => rfl)
    (fun n c t => ⟨0, by decide, rfl⟩)

/-- Claim C3.  If the set operation reports the request was not accepted for
dispatch, the verifier returns `NotAccepted` immediately: the poll loop
performs zero state reads, zero sleeps happen, and the live state is left
untouched.  (The only state read of `adjust_control` in this path is the
pre-set `Current state` print, issued before the set request.) -/
theorem verify_not_accepted_short_circuit (dev : Device)
    (n cur target fuel : Nat) (h : dev.accepted n target = false) :
    (verify dev n cur target fuel).outcome = Outcome.notAccepted ∧
      (verify dev n cur target fuel).pollReads = 0 ∧
      (verify dev n cur target fuel).sleeps = 0 ∧
      (verify dev n cur target fuel).finalState = cur := by
  rw [verify_rejected dev n cur target fuel h]
  exact ⟨rfl, rfl, rfl, rfl⟩

/-- Claim C3, witness: a rejecting device at state 4, target 7. -/
theorem verify_not_accepted_short_circuit_witness :
    (verify devNever 0 4 7 100).outcome = Outcome.notAccepted ∧
      (verify devNever 0 4 7 100).pollReads = 0 ∧
      (verify devNever 0 4 7 100).sleeps = 0 ∧
      (verify devNever 0 4 7 100).finalState = 4 :=
  verify_not_accepted_short_circuit devNever 0 4 7 100 rfl

/-- Claim C4, counterexample.  The claim says that after a `TimedOut`
outcome the final restore is still attempted.  Control with options
`[0, 1]` starting at 0, on a device that accepts but never leaves state 0:
the attempt targeting 1 times out with last-observed 0, so
`control.state != state` is false and the restore is skipped — the sweep's
only attempt is the timed-out one and no restore attempt happens. -/
theorem sweep_timeout_restore_skipped_counterexample :
    ((sweep [0, 1] 0 devStuck 100).log.map fun st => st.result.outcome) =
        [Outcome.timedOut 0] ∧
      (sweep [0, 1] 0 devStuck 100).restore = none := by
  decide

/-- Claim C4, amended.  A `TimedOut` (or `NotAccepted`) outcome on one
option does not abort the sweep: provided the options are distinct and
every response either reaches its target within the budget or is observed
back at the call-time state when time is up, every non-original option still
receives exactly one verification attempt; the final restore, when issued,
targets the original state, and it is omitted only when the live state
already equals the original — in which case the final state is the
original. -/
theorem sweep_timeout_does_not_abort (options : List Nat) (s : Nat)
    (dev : Device) (fuel : Nat) (hnd : options.Nodup)
    (hloc : ∀ n c t, (∃ k, k < fuel ∧ dev.observe n c t k = t) ∨
      dev.observe n c t fuel = c) :
    (∀ o ∈ options, o ≠ s →
        (attemptTargets (sweep options s dev fuel)).count o = 1) ∧
      (∀ st, (sweep options s dev fuel).restore = some st → st.target = s) ∧
      ((sweep options s dev fuel).restore = none →
        (sweep options s dev fuel).final = s) := by
  refine ⟨?_, ?_, ?_⟩
  · intro o ho hos
    rw [sweep_count_of_ne options s dev fuel o hos]
    exact sweepLoop_count_one dev fuel s
      (verify_finalState_localized dev fuel hloc)
      options s 0 hnd (fun q hq hqs => hqs) o ho hos
  · exact fun st => sweep_restore_target options s dev fuel st
  · exact sweep_no_restore_final options s dev fuel

/-- Claim C4, witness: on the stuck device with options `[0, 1]`, option 1
is still attempted exactly once. -/
theorem sweep_timeout_does_not_abort_witness :
    (attemptTargets (sweep [0, 1] 0 devStuck 100)).count 1 = 1 :=
  (sweep_timeout_does_not_abort [0, 1] 0 devStuck 100 (by decide)
    (fun n c t => Or.inr rfl)).1 1 (by decide) (by decide)

/-- Claim C5.  The target-temperature sweep performs exactly two verifier
calls: the first commands the maximum bound when the captured target differs
from the maximum and the minimum bound otherwise; the second commands the
originally captured target value. -/
theorem temperature_test_two_calls (t tmax tmin : ℚ) (tdev : TempDevice)
    (fuel : Nat) :
    (temperatureTest t tmax tmin tdev fuel).length = 2 ∧
      (temperatureTest t tmax tmin tdev fuel).map Prod.fst =
        [if t ≠ tmax then tmax else tmin, t] := by
  constructor <;> simp [temperatureTest]

/-- Claim C6, counterexample.  The claim says a no-op request (observed
value already equal to the target) still yields `Confirmed` on the first
poll.  On a device that rejects the set request, the verifier issues the
set once but returns `NotAccepted` with zero polls even though the observed
value (state 1) already equals the target (1). -/
theorem verify_noop_counterexample :
    devNever.observe 0 1 1 0 = 1 ∧
      (verify devNever 0 1 1 100).setCount = 1 ∧
      (verify devNever 0 1 1 100).outcome ≠ Outcome.confirmed ∧
      (verify devNever 0 1 1 100).pollReads = 0 := by
  decide

/-- Claim C6, amended.  If the observed value already equals the target at
the first poll of a verification attempt (a no-op request), then provided
the set request is accepted for dispatch (and the poll budget is positive),
the verifier still issues the set exactly once and confirms on the first
poll, before any sleep, yielding `Confirmed`. -/
theorem verify_noop_confirms_first_poll (dev : Device)
    (n cur target fuel : Nat) (hacc : dev.accepted n target = true)
    (hf : 0 < fuel) (h0 : dev.observe n cur target 0 = target) :
    (verify dev n cur target fuel).outcome = Outcome.confirmed ∧
      (verify dev n cur target fuel).setCount = 1 ∧
      (verify dev n cur target fuel).pollReads = 1 ∧
      (verify dev n cur target fuel).sleeps = 0 := by
  have hfc : firstConfirm (dev.observe n cur target) target fuel = some 0 :=
    firstConfirm_eq_some_zero _ _ fuel hf h0
  simp [verify, hacc, hfc]

/-- Claim C6, witness: the obedient device at state 5 commanded to 5. -/
theorem verify_noop_confirms_first_poll_witness :
    (verify devOk 0 5 5 100).outcome = Outcome.confirmed ∧
      (verify devOk 0 5 5 100).setCount = 1 ∧
      (verify devOk 0 5 5 100).pollReads = 1 ∧
      (verify devOk 0 5 5 100).sleeps = 0 :=
  verify_noop_confirms_first_poll devOk 0 5 5 100 rfl (by decide) rfl

/-- Claim C7, counterexample.  The claim says a `NotAccepted` outcome is
recorded per-option in the diagnostic output.  On a rejecting device the
attempt's entire output is the two preamble lines `Current state` and
`Set to`: `adjust_control` returns without printing anything about the
rejection, so no output line records the outcome. -/
theorem not_accepted_not_recorded_counterexample :
    (verify devNever 0 0 1 100).outcome = Outcome.notAccepted ∧
      (verify devNever 0 0 1 100).output =
        [Line.currentState 0, Line.setTo 1] := by
  decide

/-- Claim C7, amended.  A `NotAccepted` outcome does not abort the sweep:
provided the options are distinct and every response either reaches its
target within the budget or is observed back at the call-time state, every
non-original option still receives exactly one verification attempt (the
rejected ones included).  However, nothing is recorded about the rejection:
a rejected attempt's diagnostic output ends with the `Set to` line. -/
theorem not_accepted_does_not_abort (options : List Nat) (s : Nat)
    (dev : Device) (fuel : Nat) (hnd : options.Nodup)
    (hloc : ∀ n c t, (∃ k, k < fuel ∧ dev.observe n c t k = t) ∨
      dev.observe n c t fuel = c) :
    (∀ o ∈ options, o ≠ s →
        (attemptTargets (sweep options s dev fuel)).count o = 1) ∧
      ∀ n c t, dev.accepted n t = false →
        (verify dev n c t fuel).outcome = Outcome.notAccepted ∧
          (verify dev n c t fuel).output =
            [Line.currentState c, Line.setTo t] := by
  constructor
  · intro o ho hos
    rw [sweep_count_of_ne options s dev fuel o hos]
    exact sweepLoop_count_one dev fuel s
      (verify_finalState_localized dev fuel hloc)
      options s 0 hnd (fun q hq hqs => hqs) o ho hos
  · intro n c t h
    rw [verify_rejected dev n c t fuel h]
    exact ⟨rfl, rfl⟩

/-- Claim C7, witness: a device rejecting the first set request, options
`[0, 1, 2]` from 0 — option 2 is still attempted exactly once, and the
rejected attempt for option 1 leaves no outcome record in its output. -/
theorem not_accepted_does_not_abort_witness :
    (attemptTargets (sweep [0, 1, 2] 0 devRejectFirst 100)).count 2 = 1 ∧
      (verify devRejectFirst 0 0 1 100).output =
        [Line.currentState 0, Line.setTo 1] :=
  ⟨(not_accepted_does_not_abort [0, 1, 2] 0 devRejectFirst 100 (by decide)
      (fun n c t => Or.inl ⟨0, by decide, rfl⟩)).1 2 (by decide) (by decide),
    ((not_accepted_does_not_abort [0, 1, 2] 0 devRejectFirst 100 (by decide)
      (fun n c t => Or.inl ⟨0, by decide, rfl⟩)).2 0 0 1 rfl).2⟩

/-- Claim C8, counterexample.  The claim says no failure in the core harness
is ever fatal across multiple devices.  A spa whose configuration is loaded
but whose target temperature is unavailable trips the `assert` at
`__main__.py` 128; the `AssertionError` is not caught by the
`except SpaConnectionError` clause, so discovery over `[spaBad, spaGood]`
aborts with an uncaught fault and the healthy second spa — which on its own
processes without any fault — is never reached. -/
theorem harness_fatal_assertion_counterexample :
    runDiscovery [spaBad, spaGood] 100 =
        Except.error Fault.assertionError ∧
      isFatal (connectAndListen (some spaGood) 100) = false :=
  ⟨rfl, rfl⟩

/-- Claim C8, amended.  Connection faults and unloaded configurations are
caught and reported, and verification outcomes (`NotAccepted`, `TimedOut`)
never raise; but the harness is not fault-free: a session is fatal exactly
when the connection succeeds, the configuration is loaded, and any of the
target temperature or the temperature bounds is unavailable — then the
assertion in `test_controls` propagates uncaught (and, in discovery mode,
stops the run before later devices are processed). -/
theorem harness_fatal_iff (spa : SpaModel) (fuel : Nat) :
    isFatal (connectAndListen (some spa) fuel) = true ↔
      spa.connectionError = false ∧ spa.configLoaded = true ∧
        (spa.targetTemperature = none ∨ spa.temperatureMaximum = none ∨
          spa.temperatureMinimum = none) := by
  unfold connectAndListen
  by_cases hc : spa.connectionError
  · simp [hc, isFatal]
  · by_cases hl : spa.configLoaded
    · unfold testControlsRun
      rcases h1 : spa.targetTemperature with _ | t <;>
        rcases h2 : spa.temperatureMaximum with _ | tmax <;>
          rcases h3 : spa.temperatureMinimum with _ | tmin <;>
            simp [hc, hl, h1, h2, h3, isFatal]
    · simp [hc, hl, isFatal]

/-- Claim C9, counterexample.  The claim says that on zero discovered
devices the orchestrator reports a `"no spa provided"`-equivalent outcome.
With an empty discovery result the run prints only the pre-discovery
`"No host provided. Running in discovery mode..."` banner: no
`"No spa provided"` line (that line is only reachable inside
`connect_and_listen`, which is never called), no sweep, exit code 0. -/
theorem discovery_empty_no_report_counterexample :
    (discoveryMain [] 100).lines.count TopLine.noSpaProvided = 0 ∧
      (discoveryMain [] 100).sweepsRun = 0 ∧
      (discoveryMain [] 100).exitCode = 0 := by
  decide

/-- Claim C9, amended.  When discovery returns zero devices, no sweep is
attempted and the process terminates with exit code 0; however no
`"no spa provided"`-equivalent outcome is reported — the run's only
top-level report line is the pre-discovery banner. -/
theorem discovery_empty_run (fuel : Nat) :
    discoveryMain [] fuel = ⟨[TopLine.noHostProvided], 0, 0⟩ := rfl

/-- Claim C10.  For a control whose option set contains only its state at
sweep start, the sweep records no attempt and no restore — hence issues
zero set requests — and the control's state is left unchanged. -/
theorem sweep_singleton_no_requests (options : List Nat) (s : Nat)
    (dev : Device) (fuel : Nat) (h : ∀ o ∈ options, o = s) :
    sweep options s dev fuel = ⟨[], none, s⟩ ∧
      setRequests (sweep options s dev fuel) = 0 := by
  have hs : sweep options s dev fuel = ⟨[], none, s⟩ := by
    unfold sweep
    rw [sweepLoop_all_original dev fuel s options 0 h]
    simp
  exact ⟨hs, by rw [hs]; rfl⟩

/-- Claim C10, witness: a control with singleton option set `[5]` at
state 5. -/
theorem sweep_singleton_no_requests_witness :
    sweep [5] 5 devOk 100 = ⟨[], none, 5⟩ ∧
      setRequests (sweep [5] 5 devOk 100) = 0 :=
  sweep_singleton_no_requests [5] 5 devOk 100 (by decide)

end Pybalboa
